import Mathlib

/-!
# Verification of the secure-gotcp connection core

A shallow embedding of the connection-handling core found in `src/conn.go`
and `src/server.go`, together with theorems settling the specified
behaviour of `Conn.Close`, `Conn.AsyncWritePacket`, `Conn.Do`,
`Server.Stop` and the accept / worker loops.

Modelling conventions:
* A Go buffered channel is a `BChan`: a capacity, an ordered buffer and a
  closed flag.  `close` on a channel sets the flag; `close` on an already
  closed channel panics (modelled where it matters, in `Server.Stop`).
* `sync.Once` is a consumed-flag (`closeOnceDone`); the guarded body runs
  exactly when the flag is still unset.  Concurrent callers of a
  `sync.Once` are serialised by it, so a sequence of calls is a faithful
  model of any number of (also concurrent) callers.
* The `select` statement with several ready alternatives is
  nondeterministic; `Conn.AsyncWritePacket` therefore returns the list of
  possible outcomes of its `select` race (a singleton on the
  deterministic paths).
* Side effects that the claims talk about (hook invocations, worker
  spawns, log lines, teardown actions) are made visible as event traces.
-/

/-- A `Packet` (src: the `Packet` interface): an opaque unit of data that can
serialize itself; only its identity matters here. -/
structure Packet where
  payload : List Nat
deriving DecidableEq, Repr

/-- `Serialize` from the `Packet` interface. -/
def Packet.Serialize (p : Packet) : List Nat := p.payload

/-- A Go buffered channel of `α`: capacity, FIFO buffer, closed flag. -/
structure BChan (α : Type) where
  cap : Nat
  buf : List α
  closed : Bool
deriving DecidableEq, Repr

/-- `close(ch)` on an open channel: mark it closed (the buffer survives and
may still be drained by receivers). -/
def BChan.closeCh {α : Type} (ch : BChan α) : BChan α :=
  { ch with closed := true }

/-- Enqueue one element (the successful arm of a channel send). -/
def BChan.push {α : Type} (ch : BChan α) (a : α) : BChan α :=
  { ch with buf := ch.buf ++ [a] }

/-- The state of a `Conn` (src/conn.go, struct `Conn`): the atomic
`closeFlag`, the consumed-state of `closeOnce`, the `closeChan`
cancellation channel (only its closed-ness is observable), the two bounded
packet queues, and whether the raw socket has been closed.  The
back-reference to the server and the user-data slot play no part in the
claims and are omitted. -/
structure Conn where
  closeFlag : Bool
  closeOnceDone : Bool
  closeChanClosed : Bool
  packetSendChan : BChan Packet
  packetReceiveChan : BChan Packet
  sockClosed : Bool
deriving DecidableEq, Repr

/-- `newConn` (src/conn.go): fresh connection with open channels sized from
the server configuration (`PacketSendChanLimit`, `PacketReceiveChanLimit`). -/
def newConn (sendLimit recvLimit : Nat) : Conn :=
  { closeFlag := false
    closeOnceDone := false
    closeChanClosed := false
    packetSendChan := { cap := sendLimit, buf := [], closed := false }
    packetReceiveChan := { cap := recvLimit, buf := [], closed := false }
    sockClosed := false }

/-- The individual actions of the teardown body inside `Conn.Close`, in the
order the Go source performs them. -/
inductive CloseAction
  | setCloseFlag
  | closeCloseChan
  | closeSendChan
  | closeRecvChan
  | closeSocket
  | invokeOnClose
deriving DecidableEq, Repr

/-- The teardown sequence executed by the body of `closeOnce.Do` in
`Conn.Close` (src/conn.go): store the flag, close `closeChan`, close
`packetSendChan`, close `packetReceiveChan`, close the socket, call the
`OnClose` hook. -/
def teardownSeq : List CloseAction :=
  [CloseAction.setCloseFlag, CloseAction.closeCloseChan,
   CloseAction.closeSendChan, CloseAction.closeRecvChan,
   CloseAction.closeSocket, CloseAction.invokeOnClose]

/-- `Conn.Close` (src/conn.go): the `sync.Once`-guarded teardown.  Returns
the new state together with the trace of teardown actions performed by this
call (empty when the `Once` was already consumed). -/
def Conn.Close (c : Conn) : Conn × List CloseAction :=
  if c.closeOnceDone then (c, [])
  else
    ({ closeFlag := true
       closeOnceDone := true
       closeChanClosed := true
       packetSendChan := c.packetSendChan.closeCh
       packetReceiveChan := c.packetReceiveChan.closeCh
       sockClosed := true },
     teardownSeq)

/-- `Conn.IsClosed` (src/conn.go): lock-free read of the close flag. -/
def Conn.IsClosed (c : Conn) : Bool := c.closeFlag

/-- `n` successive invocations of `Conn.Close` on the same connection,
collecting the combined action trace.  `sync.Once` serialises concurrent
callers, so this also models `n` concurrent callers. -/
def Conn.closeN : Nat → Conn → Conn × List CloseAction
  | 0, c => (c, [])
  | n + 1, c =>
      let r := Conn.Close c
      let rest := Conn.closeN n r.1
      (rest.1, r.2 ++ rest.2)

/-- The two error values surfaced by `AsyncWritePacket` (src/conn.go):
`ErrConnClosing` and `ErrWriteBlocking`. -/
inductive WriteErr
  | ErrConnClosing
  | ErrWriteBlocking
deriving DecidableEq, Repr

/-- The `timeout == 0` arm of `AsyncWritePacket`: a nonblocking send with a
`default` case.  A send on a closed channel panics and the deferred
`recover` converts the fault to `ErrConnClosing`; a send with buffer space
succeeds; otherwise the `default` case yields `ErrWriteBlocking`. -/
def Conn.nonblockingSend (c : Conn) (p : Packet) : Conn × Option WriteErr :=
  if c.packetSendChan.closed then (c, some WriteErr.ErrConnClosing)
  else if c.packetSendChan.buf.length < c.packetSendChan.cap then
    ({ c with packetSendChan := c.packetSendChan.push p }, none)
  else (c, some WriteErr.ErrWriteBlocking)

/-- `Conn.AsyncWritePacket` (src/conn.go).  Checks `IsClosed` first and
fails with `ErrConnClosing`; with `timeout == 0` it performs the
deterministic nonblocking send; with `timeout > 0` it races a send, the
`closeChan` cancellation signal and a timer inside a `select` — the result
list enumerates every outcome the race can resolve to (the send arm is
ready when the channel is closed, in which case it panics and the deferred
`recover` yields `ErrConnClosing`, or when there is buffer space; the
cancellation arm is ready when `closeChan` is closed; the timer arm is
always eventually ready). -/
def Conn.AsyncWritePacket (c : Conn) (p : Packet) (timeout : Nat) :
    List (Conn × Option WriteErr) :=
  if c.IsClosed then [(c, some WriteErr.ErrConnClosing)]
  else if timeout = 0 then [c.nonblockingSend p]
  else
    (if c.packetSendChan.closed then [(c, some WriteErr.ErrConnClosing)]
     else if c.packetSendChan.buf.length < c.packetSendChan.cap then
       [({ c with packetSendChan := c.packetSendChan.push p }, none)]
     else []) ++
    (if c.closeChanClosed then [(c, some WriteErr.ErrConnClosing)] else []) ++
    [(c, some WriteErr.ErrWriteBlocking)]

/-- A sequence of zero-timeout `AsyncWritePacket` calls, threading the
connection state and collecting each call's result.  The zero-timeout path
is deterministic, so the head of the outcome list is the result. -/
def Conn.writeSeq : Conn → List Packet → Conn × List (Option WriteErr)
  | c, [] => (c, [])
  | c, p :: ps =>
      match Conn.AsyncWritePacket c p 0 with
      | [] => (c, [])
      | r :: _ =>
          let rest := Conn.writeSeq r.1 ps
          (rest.1, r.2 :: rest.2)

/-- The observable events of `Conn.Do` (src/conn.go): the hook calls it can
make, the workers it can spawn, and the close operations it could (but does
not) perform. -/
inductive DoEvent
  | invokeOnConnect
  | spawnHandleWorker
  | spawnReadWorker
  | spawnWriteWorker
  | invokeOnMessage
  | invokeOnClose
  | callConnClose
  | callRawSockClose
deriving DecidableEq, Repr

/-- `Conn.Do` (src/conn.go): call the `OnConnect` hook; if it returns
false, return at once; otherwise spawn the dispatch, read and write workers
via `asyncDo` (in that order).  `onConnectVerdict` is the hook's return
value; the connection state is untouched either way. -/
def Conn.Do (onConnectVerdict : Bool) (c : Conn) : Conn × List DoEvent :=
  if onConnectVerdict then
    (c, [DoEvent.invokeOnConnect, DoEvent.spawnHandleWorker,
         DoEvent.spawnReadWorker, DoEvent.spawnWriteWorker])
  else (c, [DoEvent.invokeOnConnect])

/-- The state of a `Server`'s cancellation signal (src/server.go,
`exitChan`): only its closed-ness is observable. -/
structure Server where
  exitChanClosed : Bool
deriving DecidableEq, Repr

/-- `NewServer` (src/server.go): the exit channel starts open. -/
def NewServer : Server := { exitChanClosed := false }

/-- Go semantics of `close(ch)`: closing an open channel marks it closed;
closing an already-closed channel is a run-time panic (`none`). -/
def goChanClose (alreadyClosed : Bool) : Option Bool :=
  if alreadyClosed then none else some true

/-- `Server.Stop` (src/server.go): `close(s.exitChan)` followed by
`s.waitGroup.Wait()`.  The result is `none` when the call panics (the exit
channel was already closed); the wait itself is modelled separately by the
`SrvSys` transition system. -/
def Server.Stop (s : Server) : Option Server :=
  match goChanClose s.exitChanClosed with
  | none => none
  | some b => some { s with exitChanClosed := b }

/-- Outcome of one iteration of the accept loop in `Server.Start`
(src/server.go). -/
inductive AcceptOutcome
  | exitLoop
  | spawnedConn
  | retried
deriving DecidableEq, Repr

/-- A diagnostic log line emitted through `writeLog`. -/
inductive LogEvent
  | acceptErrLine
deriving DecidableEq, Repr

/-- One iteration of the accept loop of `Server.Start` (src/server.go):
if the exit signal is raised, leave the loop; otherwise arm the deadline
and call `Accept`; on error, `continue` (retry at once — the source logs
nothing on this path); on success, register and spawn a connection
worker.  The second component is the trace of log lines the iteration
emits. -/
def Server.acceptIter (exitRaised acceptFails : Bool) :
    AcceptOutcome × List LogEvent :=
  if exitRaised then (AcceptOutcome.exitLoop, [])
  else if acceptFails then (AcceptOutcome.retried, [])
  else (AcceptOutcome.spawnedConn, [])

/-- Global state of the server's join registry (src/server.go `waitGroup`
together with src/conn.go `asyncDo`): the `WaitGroup` counter, whether the
accept worker of `Server.Start` is still running, how many registered
connection goroutines / loop workers are running, whether `Stop` has
raised `exitChan`, and whether `Stop`'s `Wait` has returned. -/
structure SrvSys where
  counter : Nat
  acceptRunning : Bool
  workers : Nat
  exitRaised : Bool
  stopReturned : Bool
deriving DecidableEq, Repr

/-- Initial state: `Server.Start` has performed its own `waitGroup.Add(1)`
and is running as the accept worker. -/
def SrvSys.init : SrvSys :=
  { counter := 1, acceptRunning := true, workers := 0,
    exitRaised := false, stopReturned := false }

/-- One step of the concurrent system.  `spawnConn` is the accept loop's
`s.waitGroup.Add(1)` followed by `go ... Do() ...` — it requires only that
the accept worker is running, so it can fire after the exit signal was
raised (a socket accepted just before the raise was observed).
`spawnWorker` is `asyncDo`'s `wg.Add(1); go ...`, performed by a running
registered goroutine.  `workerDone` is a worker's `wg.Done()` on exit.
`acceptExit` is the accept worker observing `exitChan` and running its
deferred `waitGroup.Done()`.  `stopRaise` is `close(s.exitChan)` inside
`Server.Stop`, and `stopReturn` is `s.waitGroup.Wait()` returning, which
the `WaitGroup` allows only at counter zero. -/
inductive SrvStep : SrvSys → SrvSys → Prop
  | spawnConn (s : SrvSys) : s.acceptRunning = true →
      SrvStep s { s with counter := s.counter + 1, workers := s.workers + 1 }
  | spawnWorker (s : SrvSys) : 1 ≤ s.workers →
      SrvStep s { s with counter := s.counter + 1, workers := s.workers + 1 }
  | workerDone (s : SrvSys) : 1 ≤ s.workers →
      SrvStep s { s with counter := s.counter - 1, workers := s.workers - 1 }
  | acceptExit (s : SrvSys) : s.acceptRunning = true → s.exitRaised = true →
      SrvStep s { s with counter := s.counter - 1, acceptRunning := false }
  | stopRaise (s : SrvSys) : s.exitRaised = false →
      SrvStep s { s with exitRaised := true }
  | stopReturn (s : SrvSys) : s.exitRaised = true → s.counter = 0 →
      SrvStep s { s with stopReturned := true }

/-- Reachability from the initial registry state. -/
inductive SrvReach : SrvSys → Prop
  | init : SrvReach SrvSys.init
  | step {s t : SrvSys} : SrvReach s → SrvStep s t → SrvReach t

/-- Registry invariant: the `WaitGroup` counter counts exactly the running
registered goroutines, and `Wait` only ever returned at counter zero. -/
def SrvInv (s : SrvSys) : Prop :=
  s.counter = s.workers + (if s.acceptRunning then 1 else 0) ∧
  (s.stopReturned = true → s.counter = 0)

/-- State of one connection's read and dispatch workers (src/conn.go,
`readLoop` and `handleLoop`) in the scenario where the protocol decodes the
first two packets and fails on the third.  `readsAttempted` counts calls to
`protocol.ReadPacket`; `readsOk` counts successful decodes; `recvBuf` is
the number of packets buffered in `packetReceiveChan` (capacity
`recvCap`); the remaining fields mirror the `Conn` close state plus
counters for the `OnMessage` / `OnClose` hook invocations.  The write
worker and the server-wide exit signal play no part in the scenario (no
outbound traffic, `Stop` never called) and are omitted. -/
structure LoopSys where
  readsAttempted : Nat
  readsOk : Nat
  recvBuf : Nat
  recvCap : Nat
  recvClosed : Bool
  closeChanClosed : Bool
  closeFlag : Bool
  closeOnceDone : Bool
  onMessageCount : Nat
  onCloseCount : Nat
  readExited : Bool
  handleExited : Bool
deriving DecidableEq, Repr

/-- The effect of `Conn.Close` on the shared loop state (the `sync.Once`
guard, the flag/channel stores and the `OnClose` hook call). -/
def LoopSys.closeConn (s : LoopSys) : LoopSys :=
  if s.closeOnceDone then s
  else
    { s with
      closeOnceDone := true
      closeFlag := true
      closeChanClosed := true
      recvClosed := true
      onCloseCount := s.onCloseCount + 1 }

/-- A scheduler choice: run one iteration of the read worker, or let the
dispatch worker's `select` take the receive arm, or take the
cancellation arm. -/
inductive LoopChoice
  | readStep
  | handleRecv
  | handleClose
deriving DecidableEq, Repr

/-- One iteration of `readLoop` (src/conn.go) under the failing-on-third
protocol: if the worker already returned, nothing happens; if the
connection-local cancellation signal is observed at the top of the loop,
the worker returns and its deferred `Close()` runs; otherwise
`ReadPacket` is called — the first two calls decode a packet and push it
onto `packetReceiveChan` (the push blocks while the buffer is full, in
which case the iteration cannot complete), and the third call fails, upon
which the worker returns and its deferred `Close()` runs. -/
def LoopSys.readStepFn (s : LoopSys) : LoopSys :=
  if s.readExited then s
  else if s.closeChanClosed then
    LoopSys.closeConn { s with readExited := true }
  else if s.readsOk < 2 then
    if s.recvBuf < s.recvCap then
      { s with
        readsAttempted := s.readsAttempted + 1
        readsOk := s.readsOk + 1
        recvBuf := s.recvBuf + 1 }
    else s
  else
    LoopSys.closeConn
      { s with readsAttempted := s.readsAttempted + 1, readExited := true }

/-- The receive arm of `handleLoop`'s `select` (src/conn.go): ready when
the inbound buffer is nonempty or the channel is closed.  After receiving
a buffered packet the loop first checks `IsClosed` — if the connection is
already closed the worker returns (running its deferred `Close()`),
otherwise it invokes `OnMessage` (which keeps the connection open in this
scenario).  A receive on a closed, drained channel yields the zero value,
after which the `IsClosed` check makes the worker return. -/
def LoopSys.handleRecvFn (s : LoopSys) : LoopSys :=
  if s.handleExited then s
  else if 0 < s.recvBuf then
    if s.closeFlag then
      LoopSys.closeConn
        { s with recvBuf := s.recvBuf - 1, handleExited := true }
    else
      { s with
        recvBuf := s.recvBuf - 1
        onMessageCount := s.onMessageCount + 1 }
  else if s.recvClosed then
    LoopSys.closeConn { s with handleExited := true }
  else s

/-- The cancellation arm of `handleLoop`'s `select`: ready when
`closeChan` is closed; the worker returns and its deferred `Close()`
runs. -/
def LoopSys.handleCloseFn (s : LoopSys) : LoopSys :=
  if s.handleExited then s
  else if s.closeChanClosed then
    LoopSys.closeConn { s with handleExited := true }
  else s

/-- Dispatch one scheduler choice. -/
def LoopSys.step (s : LoopSys) : LoopChoice → LoopSys
  | LoopChoice.readStep => s.readStepFn
  | LoopChoice.handleRecv => s.handleRecvFn
  | LoopChoice.handleClose => s.handleCloseFn

/-- Run the two-worker system under a schedule. -/
def LoopSys.run (s : LoopSys) (cs : List LoopChoice) : LoopSys :=
  cs.foldl LoopSys.step s

/-- Initial state: fresh connection, inbound capacity 2 (the
configuration of the spec's scenarios), no hook calls yet, both workers
running. -/
def LoopSys.init : LoopSys :=
  { readsAttempted := 0, readsOk := 0, recvBuf := 0, recvCap := 2,
    recvClosed := false, closeChanClosed := false, closeFlag := false,
    closeOnceDone := false, onMessageCount := 0, onCloseCount := 0,
    readExited := false, handleExited := false }

/-- Invariant of the two-worker system: the close-state booleans move
together; `OnClose` has fired exactly once iff the teardown ran; the read
worker returns exactly when teardown ran, which happens exactly at the
third (failing) decode; while the read worker runs, every attempted decode
succeeded; at most two decodes succeed; the `OnMessage` count plus the
packets still buffered never exceeds the successful decodes; the dispatch
worker only returns after teardown. -/
def LoopInv (s : LoopSys) : Prop :=
  s.closeFlag = s.closeOnceDone ∧
  s.closeChanClosed = s.closeOnceDone ∧
  s.recvClosed = s.closeOnceDone ∧
  s.onCloseCount = (if s.closeOnceDone then 1 else 0) ∧
  s.readExited = s.closeOnceDone ∧
  (s.closeOnceDone = true → s.readsAttempted = 3) ∧
  (s.closeOnceDone = false → s.readsAttempted = s.readsOk) ∧
  s.readsOk ≤ 2 ∧
  s.onMessageCount + s.recvBuf ≤ s.readsOk ∧
  (s.handleExited = true → s.closeOnceDone = true)

/-- Concrete packets for the spec scenarios. -/
def pA : Packet := { payload := [1] }

/-- Concrete packets for the spec scenarios. -/
def pB : Packet := { payload := [2] }

/-- Concrete packets for the spec scenarios. -/
def pC : Packet := { payload := [3] }

/-- The connection `c` with the packets `ps` appended to its outbound
buffer — the state produced by a run of successful enqueues. -/
def fillConn (c : Conn) (ps : List Packet) : Conn :=
  { c with packetSendChan :=
      { c.packetSendChan with buf := c.packetSendChan.buf ++ ps } }

theorem srvInv_init : SrvInv SrvSys.init := by
  constructor <;> simp [SrvSys.init]

theorem srvInv_step {s t : SrvSys} (h : SrvInv s) (hst : SrvStep s t) :
    SrvInv t := by
  obtain ⟨h1, h2⟩ := h
  cases hst with
  | spawnConn ha =>
      simp only [SrvInv, ha, if_pos] at h1 ⊢
      exact ⟨by omega, fun hr => by have := h2 hr; omega⟩
  | spawnWorker hw =>
      refine ⟨?_, fun hr => ?_⟩
      · simp only []
        omega
      · have := h2 hr
        simp only [] at hr ⊢
        omega
  | workerDone hw =>
      refine ⟨?_, fun hr => ?_⟩
      · simp only []
        omega
      · have := h2 hr
        omega
  | acceptExit ha he =>
      simp only [SrvInv, ha, if_pos, if_neg, Bool.false_eq_true,
        not_false_eq_true] at h1 ⊢
      exact ⟨by omega, fun hr => by have := h2 hr; omega⟩
  | stopRaise he =>
      exact ⟨h1, h2⟩
  | stopReturn he hc =>
      exact ⟨h1, fun _ => hc⟩

theorem srvInv_reach {s : SrvSys} (h : SrvReach s) : SrvInv s := by
  induction h with
  | init => exact srvInv_init
  | step _ hst ih => exact srvInv_step ih hst

theorem loopInv_init : LoopInv LoopSys.init := by
  simp [LoopInv, LoopSys.init]

theorem loopInv_step (s : LoopSys) (ch : LoopChoice) (h : LoopInv s) :
    LoopInv (LoopSys.step s ch) := by
  obtain ⟨h1, h2, h3, h4, h5, h6, h7, h8, h9, h10⟩ := h
  cases ch <;>
    simp only [LoopSys.step, LoopSys.readStepFn, LoopSys.handleRecvFn,
      LoopSys.handleCloseFn, LoopSys.closeConn] <;>
    split_ifs <;>
    refine ⟨?_, ?_, ?_, ?_, ?_, ?_, ?_, ?_, ?_, ?_⟩ <;>
    (simp_all
     first
       | done
       | omega)

theorem loopInv_run (cs : List LoopChoice) :
    ∀ s : LoopSys, LoopInv s → LoopInv (LoopSys.run s cs) := by
  induction cs with
  | nil => intro s h; exact h
  | cons c cs ih =>
      intro s h
      exact ih (LoopSys.step s c) (loopInv_step s c h)

theorem closeN_consumed (n : Nat) :
    ∀ d : Conn, d.closeOnceDone = true → Conn.closeN n d = (d, []) := by
  induction n with
  | zero => intro d _; rfl
  | succ m ih =>
      intro d hd
      simp only [Conn.closeN, Conn.Close, hd, if_pos, if_true]
      simp [ih d hd]

/-- C1: on any connection that has not yet been torn down, any number
`n ≥ 1` of `Close()` invocations (which `sync.Once` serialises, so this
covers concurrent callers) executes the teardown body exactly once, in the
source order — set the closed flag, close `closeChan`, close the outbound
queue, close the inbound queue, close the socket, invoke the `OnClose`
hook — so the closed-hook fires exactly once. -/
theorem Conn.close_teardown_once (c : Conn) (n : Nat)
    (hc : c.closeOnceDone = false) (hn : 1 ≤ n) :
    (Conn.closeN n c).2 = teardownSeq ∧
    ((Conn.closeN n c).2).count CloseAction.invokeOnClose = 1 := by
  obtain ⟨m, rfl⟩ : ∃ m, n = m + 1 := ⟨n - 1, by omega⟩
  have h2 : (Conn.closeN (m + 1) c).2 = teardownSeq := by
    simp [Conn.closeN, Conn.Close, hc, closeN_consumed m]
  refine ⟨h2, ?_⟩
  rw [h2]
  decide

/-- Witness for C1 at a fresh connection and three `Close()` calls. -/
theorem Conn.close_teardown_once_witness :
    (newConn 2 2).closeOnceDone = false ∧ 1 ≤ 3 ∧
    (Conn.closeN 3 (newConn 2 2)).2 = teardownSeq ∧
    ((Conn.closeN 3 (newConn 2 2)).2).count CloseAction.invokeOnClose = 1 :=
  ⟨rfl, by omega,
   (Conn.close_teardown_once (newConn 2 2) 3 rfl (by omega)).1,
   (Conn.close_teardown_once (newConn 2 2) 3 rfl (by omega)).2⟩

/-- C2 counterexample: calling `Stop()` a second time on the same `Server`
does not complete without fault — `close(s.exitChan)` on the
already-closed channel is a run-time panic (`none`), refuting that
re-raising the signal is a no-op. -/
theorem Server.stop_twice_counterexample :
    Option.bind (Server.Stop NewServer) Server.Stop = none := rfl

/-- C2 amended: the first `Stop()` raises the cancellation signal (which
then stays raised), but `Stop()` is not idempotent — a second call on the
same `Server` panics, because closing an already-closed channel faults. -/
theorem Server.stop_raises_then_second_panics :
    Server.Stop NewServer = some { exitChanClosed := true } ∧
    Server.Stop { exitChanClosed := true } = none :=
  ⟨rfl, rfl⟩

/-- C4: once `Close()` has run on a connection, every subsequent
`AsyncWritePacket` call — any packet, any timeout — fails with
`ErrConnClosing` (the `IsClosed` pre-check fires before either `select`),
leaving the connection unchanged. -/
theorem Conn.asyncWrite_after_close_closing (c : Conn) (p : Packet)
    (timeout : Nat) (h : c.closeOnceDone = false) :
    Conn.AsyncWritePacket (Conn.Close c).1 p timeout =
      [((Conn.Close c).1, some WriteErr.ErrConnClosing)] := by
  simp [Conn.Close, h, Conn.AsyncWritePacket, Conn.IsClosed]

/-- Witness for C4 at a fresh connection, an arbitrary packet and a
nonzero timeout. -/
theorem Conn.asyncWrite_after_close_closing_witness :
    (newConn 2 2).closeOnceDone = false ∧
    Conn.AsyncWritePacket (Conn.Close (newConn 2 2)).1 pA 5 =
      [((Conn.Close (newConn 2 2)).1, some WriteErr.ErrConnClosing)] :=
  ⟨rfl, Conn.asyncWrite_after_close_closing (newConn 2 2) pA 5 rfl⟩

/-- C5: when the `OnConnect` hook rejects the connection, `Do()` returns
having invoked only that hook: none of the three workers is spawned and
neither `OnMessage` nor `OnClose` is ever invoked for the connection. -/
theorem Conn.do_reject_spawns_nothing (c : Conn) :
    (Conn.Do false c).2 = [DoEvent.invokeOnConnect] ∧
    DoEvent.spawnHandleWorker ∉ (Conn.Do false c).2 ∧
    DoEvent.spawnReadWorker ∉ (Conn.Do false c).2 ∧
    DoEvent.spawnWriteWorker ∉ (Conn.Do false c).2 ∧
    DoEvent.invokeOnMessage ∉ (Conn.Do false c).2 ∧
    DoEvent.invokeOnClose ∉ (Conn.Do false c).2 := by
  refine ⟨rfl, ?_, ?_, ?_, ?_, ?_⟩ <;> simp [Conn.Do]

/-- C6 counterexample: an accept-loop iteration in which `Accept` fails
(with the exit signal not raised) emits no log line at all — the source
path is a bare `continue` — refuting that every failed accept produces a
diagnostic log line. -/
theorem Server.accept_fail_logs_nothing :
    (Server.acceptIter false true).1 = AcceptOutcome.retried ∧
    (Server.acceptIter false true).2 = [] :=
  ⟨rfl, rfl⟩

/-- C6 amended: on accept failure the loop neither logs, nor exits, nor
spawns a connection: it retries the next iteration immediately (the model
has no backoff or error-classification step at all); only the raised exit
signal makes the loop return. -/
theorem Server.accept_fail_retries_silently :
    ∀ e : Bool, Server.acceptIter e true =
      (if e then AcceptOutcome.exitLoop else AcceptOutcome.retried, []) := by
  decide

/-- C10: when the `OnConnect` hook rejects the connection, `Do()` returns
without calling `Conn.Close()` or the raw socket's close: the connection
state (in particular `sockClosed`) is untouched, so the underlying socket
handle stays open. -/
theorem Conn.do_reject_socket_left_open (c : Conn) :
    (Conn.Do false c).1 = c ∧
    DoEvent.callConnClose ∉ (Conn.Do false c).2 ∧
    DoEvent.callRawSockClose ∉ (Conn.Do false c).2 ∧
    (Conn.Do false c).1.sockClosed = c.sockClosed := by
  refine ⟨rfl, ?_, ?_, rfl⟩ <;> simp [Conn.Do]

theorem writeSeq_fill (ps rest : List Packet) :
    ∀ c : Conn, c.closeFlag = false → c.packetSendChan.closed = false →
      c.packetSendChan.buf.length + ps.length ≤ c.packetSendChan.cap →
      Conn.writeSeq c (ps ++ rest) =
        ((Conn.writeSeq (fillConn c ps) rest).1,
         List.replicate ps.length none ++
           (Conn.writeSeq (fillConn c ps) rest).2) := by
  induction ps with
  | nil =>
      intro c h1 h2 h3
      simp only [List.nil_append, List.replicate_zero, fillConn,
        List.append_nil]
      exact rfl
  | cons p ps ih =>
      intro c h1 h2 h3
      have hlen : c.packetSendChan.buf.length < c.packetSendChan.cap := by
        simp only [List.length_cons] at h3
        omega
      have hw : Conn.AsyncWritePacket c p 0 =
          [({ c with packetSendChan := c.packetSendChan.push p }, none)] := by
        simp [Conn.AsyncWritePacket, Conn.IsClosed, h1,
          Conn.nonblockingSend, h2, hlen]
      have hih := ih { c with packetSendChan := c.packetSendChan.push p }
        (by simpa using h1)
        (by simp [BChan.push, h2])
        (by simp only [BChan.push, List.length_append, List.length_cons,
              List.length_nil] at h3 ⊢
            omega)
      have hfc : fillConn { c with packetSendChan := c.packetSendChan.push p }
          ps = fillConn c (p :: ps) := by
        simp [fillConn, BChan.push]
      rw [List.cons_append]
      simp only [Conn.writeSeq, hw]
      rw [hih, hfc]
      simp [List.replicate_succ]

/-- C3: on an open connection with outbound capacity `C`, an empty
outbound buffer and no consumer draining, the first `C` zero-timeout
`AsyncWritePacket` calls succeed (each returning `nil` and enqueueing its
packet), and the `(C+1)`th zero-timeout call fails immediately with
`ErrWriteBlocking`, leaving exactly the first `C` packets enqueued. -/
theorem Conn.asyncWrite_fills_then_blocks (c : Conn) (ps : List Packet)
    (q : Packet) (h1 : c.closeFlag = false)
    (h2 : c.packetSendChan.closed = false)
    (h3 : c.packetSendChan.buf = [])
    (h4 : ps.length = c.packetSendChan.cap) :
    (Conn.writeSeq c (ps ++ [q])).2 =
      List.replicate c.packetSendChan.cap none ++
        [some WriteErr.ErrWriteBlocking] ∧
    (Conn.writeSeq c (ps ++ [q])).1.packetSendChan.buf = ps := by
  have hfill := writeSeq_fill ps [q] c h1 h2
    (by rw [h3]; simp [h4])
  have hbuf : (fillConn c ps).packetSendChan.buf = ps := by
    simp [fillConn, h3]
  have hnlt : ¬ ((fillConn c ps).packetSendChan.buf.length <
      (fillConn c ps).packetSendChan.cap) := by
    simp [fillConn, h3, h4]
  have hw : Conn.AsyncWritePacket (fillConn c ps) q 0 =
      [(fillConn c ps, some WriteErr.ErrWriteBlocking)] := by
    have hfl : (fillConn c ps).closeFlag = false := by simpa [fillConn] using h1
    have hcl : (fillConn c ps).packetSendChan.closed = false := by
      simpa [fillConn] using h2
    simp [Conn.AsyncWritePacket, Conn.IsClosed, hfl, Conn.nonblockingSend,
      hcl, hnlt]
  have hq : Conn.writeSeq (fillConn c ps) [q] =
      (fillConn c ps, [some WriteErr.ErrWriteBlocking]) := by
    simp [Conn.writeSeq, hw]
  rw [hfill, hq]
  exact ⟨by rw [h4], hbuf⟩

/-- Witness for C3: the spec scenario — capacity 2, packets `A, B, C`,
results `ok, ok, WouldBlock` with exactly `A, B` enqueued. -/
theorem Conn.asyncWrite_fills_then_blocks_witness :
    (newConn 2 2).closeFlag = false ∧
    (Conn.writeSeq (newConn 2 2) ([pA, pB] ++ [pC])).2 =
      List.replicate (newConn 2 2).packetSendChan.cap none ++
        [some WriteErr.ErrWriteBlocking] ∧
    (Conn.writeSeq (newConn 2 2) ([pA, pB] ++ [pC])).1.packetSendChan.buf =
      [pA, pB] :=
  ⟨rfl, Conn.asyncWrite_fills_then_blocks (newConn 2 2) [pA, pB] pC
    rfl rfl rfl rfl⟩

/-- C8: `Server.Stop()` cannot return while any registered worker is
still running — in every reachable state of the join-registry system in
which `Wait` has returned, no connection worker and no accept worker is
running; this includes workers of connections accepted just before the
cancellation signal was raised, because spawning is permitted after
`exitRaised` and still increments the counter that gates `Wait`. -/
theorem Server.stop_return_no_workers {s : SrvSys} (h : SrvReach s)
    (hr : s.stopReturned = true) :
    s.workers = 0 ∧ s.acceptRunning = false := by
  obtain ⟨h1, h2⟩ := srvInv_reach h
  have hc := h2 hr
  by_cases ha : s.acceptRunning = true
  · rw [ha, if_pos rfl] at h1
    omega
  · simp only [Bool.not_eq_true] at ha
    rw [ha] at h1
    simp only [Bool.false_eq_true, if_false] at h1
    exact ⟨by omega, ha⟩

/-- Witness for C8: a concrete execution — `Stop` raises the signal, the
accept worker observes it and exits, `Wait` returns — reaching a
stop-returned state with no running workers. -/
theorem Server.stop_return_no_workers_witness :
    ({ counter := 0, acceptRunning := false, workers := 0,
       exitRaised := true, stopReturned := true } : SrvSys).workers = 0 ∧
    ({ counter := 0, acceptRunning := false, workers := 0,
       exitRaised := true, stopReturned := true } : SrvSys).acceptRunning =
      false :=
  Server.stop_return_no_workers
    (SrvReach.step
      (SrvReach.step
        (SrvReach.step SrvReach.init (SrvStep.stopRaise SrvSys.init rfl))
        (SrvStep.acceptExit { SrvSys.init with exitRaised := true } rfl rfl))
      (SrvStep.stopReturn
        { counter := 0, acceptRunning := false, workers := 0,
          exitRaised := true, stopReturned := false } rfl rfl))
    rfl

/-- C9 counterexample: under the schedule in which the read worker runs
its three iterations (the third decode failing and triggering `Close`)
before the dispatch worker is scheduled, the dispatch worker then observes
the connection closed and exits without invoking `OnMessage` at all — the
closed-hook fires once, both workers exit, yet `OnMessage` is invoked zero
times, refuting that it is invoked exactly twice. -/
theorem readfail_schedule_zero_messages :
    (LoopSys.run LoopSys.init
      [LoopChoice.readStep, LoopChoice.readStep, LoopChoice.readStep,
       LoopChoice.handleRecv]).onMessageCount = 0 ∧
    (LoopSys.run LoopSys.init
      [LoopChoice.readStep, LoopChoice.readStep, LoopChoice.readStep,
       LoopChoice.handleRecv]).onCloseCount = 1 ∧
    (LoopSys.run LoopSys.init
      [LoopChoice.readStep, LoopChoice.readStep, LoopChoice.readStep,
       LoopChoice.handleRecv]).readExited = true ∧
    (LoopSys.run LoopSys.init
      [LoopChoice.readStep, LoopChoice.readStep, LoopChoice.readStep,
       LoopChoice.handleRecv]).handleExited = true := by
  decide

/-- C9 amended: with a protocol that fails decoding the third packet,
under every schedule of the read and dispatch workers `OnMessage` is
invoked at most twice (exactly twice only when the dispatch worker
consumes each packet before the teardown completes), `OnClose` fires at
most once — and exactly once whenever the read worker has exited — and no
decode is ever attempted after the failing third one (at most three
decode calls in any schedule). -/
theorem readfail_bounds (cs : List LoopChoice) :
    (LoopSys.run LoopSys.init cs).onMessageCount ≤ 2 ∧
    (LoopSys.run LoopSys.init cs).onCloseCount ≤ 1 ∧
    (LoopSys.run LoopSys.init cs).readsAttempted ≤ 3 ∧
    ((LoopSys.run LoopSys.init cs).readExited = true →
      (LoopSys.run LoopSys.init cs).onCloseCount = 1) := by
  obtain ⟨h1, h2, h3, h4, h5, h6, h7, h8, h9, h10⟩ :=
    loopInv_run cs LoopSys.init loopInv_init
  refine ⟨by omega, ?_, ?_, ?_⟩
  · rw [h4]
    split <;> omega
  · by_cases hod : (LoopSys.run LoopSys.init cs).closeOnceDone = true
    · have := h6 hod
      omega
    · simp only [Bool.not_eq_true] at hod
      have := h7 hod
      omega
  · intro hre
    rw [h5] at hre
    rw [h4, hre]
    simp

/-- Witness for C9's amended claim: the fair alternating schedule reaches
a state with the read worker exited, `OnClose` fired once and `OnMessage`
invoked exactly twice. -/
theorem readfail_bounds_witness :
    (LoopSys.run LoopSys.init
      [LoopChoice.readStep, LoopChoice.handleRecv, LoopChoice.readStep,
       LoopChoice.handleRecv, LoopChoice.readStep,
       LoopChoice.handleRecv]).readExited = true ∧
    (LoopSys.run LoopSys.init
      [LoopChoice.readStep, LoopChoice.handleRecv, LoopChoice.readStep,
       LoopChoice.handleRecv, LoopChoice.readStep,
       LoopChoice.handleRecv]).onCloseCount = 1 ∧
    (LoopSys.run LoopSys.init
      [LoopChoice.readStep, LoopChoice.handleRecv, LoopChoice.readStep,
       LoopChoice.handleRecv, LoopChoice.readStep,
       LoopChoice.handleRecv]).onMessageCount = 2 :=
  ⟨by decide,
   (readfail_bounds
     [LoopChoice.readStep, LoopChoice.handleRecv, LoopChoice.readStep,
      LoopChoice.handleRecv, LoopChoice.readStep,
      LoopChoice.handleRecv]).2.2.2 (by decide),
   by decide⟩
